import Mathlib

/-!
# Verification of the IoTScript edge telemetry gateway

Shallow embedding, in Lean 4, of the core operations of the IoTScript
repository (`common.py`, `telemetry_reader.py`, `telemetry_uploader.py`,
`calibrate_conductivity.py`), together with theorems settling the frozen
specification claims about them.

Bytes are modelled as `Nat` values below 256; machine integers in the
source stay below 2^16, where Python's unbounded ints and `Nat` agree.
All definitions are translated from the Python source; the one
specification-side definition is the eviction-order property refuted in
`dedup_eviction_not_oldest_first_cx`.
-/

namespace IoTSpec

/-! ## Definitions: register protocol codec (`telemetry_reader.py`) -/

/-- One inner iteration of `calculate_crc`'s bit loop
(`telemetry_reader.py` lines 85-90): shift right, conditionally xor the
reflected Modbus polynomial `0xA001`. -/
def crcBitStep (crc : Nat) : Nat :=
  if crc % 2 = 1 then (crc / 2) ^^^ 0xA001 else crc / 2

/-- Folding one data byte into the CRC register: xor the byte in, then run
the bit loop eight times (`telemetry_reader.py` lines 83-90). -/
def crcByte (crc b : Nat) : Nat :=
  crcBitStep^[8] (crc ^^^ b)

/-- `calculate_crc` (`telemetry_reader.py` lines 81-91): Modbus CRC16 with
initial value `0xFFFF`, returned as the two little-endian bytes of
`crc.to_bytes(2, byteorder='little')`. -/
def calculate_crc (data : List Nat) : List Nat :=
  let c := data.foldl crcByte 0xFFFF
  [c % 256, c / 256]

/-- `int.from_bytes(bs, byteorder='big')`. -/
def fromBytesBE (bs : List Nat) : Nat :=
  bs.foldl (fun acc b => acc * 256 + b) 0

/-- The data-byte extraction of the live read path
(`telemetry_reader.py` line 187): `response[3:3 + num_registers * 2]`. -/
def responseDataBytes (response : List Nat) (numRegisters : Nat) : List Nat :=
  (response.drop 3).take (2 * numRegisters)

/-- Raw register value of the live read path (`telemetry_reader.py`
line 191): big-endian integer over the extracted data bytes. -/
def decodeRaw (response : List Nat) (numRegisters : Nat) : Nat :=
  fromBytesBE (responseDataBytes response numRegisters)

/-- Response handling of the live read path (`telemetry_reader.py` lines
180-205).  The code only tests `if response:`: a non-empty response is
decoded (`raw_value * 0.1`, modelled exactly in `ℚ`; `400 * 0.1` is exact
in binary floating point as well) and produces a reading; only an empty
(timed-out) read yields no reading.  No length, address, function-code or
CRC check appears on this path. -/
def live_parse_response (response : List Nat) (numRegisters : Nat) : Option ℚ :=
  if response = [] then none
  else some ((decodeRaw response numRegisters : ℚ) * (1 / 10))

/-- The fixed request frame body of the testable CRC property:
address `01`, function `03`, start address `0000`, register count `0001`. -/
def crcTestFrame : List Nat := [0x01, 0x03, 0x00, 0x00, 0x00, 0x01]

/-- The response of the decode testable property: `01 03 02 01 90` followed
by its genuine CRC bytes (`B9 B8`, as computed by `calculate_crc`). -/
def decodeTestResponse : List Nat := [0x01, 0x03, 0x02, 0x01, 0x90, 0xB9, 0xB8]

/-- A response whose device address byte is `2` while the live reader's
configured device address defaults to `1` (`telemetry_reader.py` line 160). -/
def c7BadResponse : List Nat := [0x02, 0x03, 0x02, 0x01, 0x90, 0xB9, 0xB8]

/-! ## Definitions: calibrator response validation
(`calibrate_conductivity.py`) -/

/-- Outcome of `ConductivityCalibrator.read_register`'s response handling
(`calibrate_conductivity.py` lines 139-166).  The Python function prints a
distinct message per branch and returns `None` on every error; the
constructor records which branch was taken. -/
inductive RegResult where
  | lengthError (got expected : Nat)
  | addressError (got : Nat)
  | deviceError (code : Nat)
  | functionError (got : Nat)
  | value (v : Nat)
  | rawData (d : List Nat)
  | raised
deriving DecidableEq

/-- `ConductivityCalibrator.read_register`, response-validation part
(`calibrate_conductivity.py` lines 139-166): reject on length mismatch,
device-address mismatch, and function-code mismatch, with function code
`0x83` (high bit set) reported as a device error distinct from the
malformed cases; otherwise extract the data bytes and, for a single
register, return the 16-bit big-endian value.  `raised` models the
`IndexError` (caught by the enclosing `except`) when fewer than two data
bytes are present for `count == 1`. -/
def read_register_parse (deviceAddress count : Nat) (response : List Nat) : RegResult :=
  if response.length ≠ 5 + 2 * count then .lengthError response.length (5 + 2 * count)
  else if response.getD 0 0 ≠ deviceAddress then .addressError (response.getD 0 0)
  else if response.getD 1 0 ≠ 0x03 then
    (if response.getD 1 0 = 0x83 then .deviceError (response.getD 2 0)
     else .functionError (response.getD 1 0))
  else
    let dataLength := response.getD 2 0
    let data := (response.drop 3).take dataLength
    if count = 1 then
      match data with
      | b0 :: b1 :: _ => .value (b0 * 256 + b1)
      | _ => .raised
    else .rawData data

/-! ## Definitions: durable buffer store (`common.py`,
`telemetry_reader.py`) -/

/-- The two on-disk buffer generations, `buffer_a.json` and `buffer_b.json`
(`common.py` lines 49-50). -/
inductive Gen where
  | A
  | B
deriving DecidableEq

/-- The other generation. -/
def Gen.flip : Gen → Gen
  | .A => .B
  | .B => .A

/-- `get_active_buffer` (`common.py` lines 145-152), given the stripped
content of `active_buffer.txt`: `BUFFER_A` if the content is `'A'`,
otherwise `BUFFER_B`.  (A missing pointer file is initialized to `'A'`
before being read, so the content is always defined.) -/
def get_active_buffer (ptrFile : String) : Gen :=
  if ptrFile = "A" then .A else .B

/-- `switch_buffer` (`common.py` lines 154-159), given the stripped content
of `active_buffer.txt`.  Returns the new pointer-file content together with
the buffer path the function returns: `'B' if current == 'A' else 'A'` is
written, and `BUFFER_B if current == 'A' else BUFFER_A` is returned. -/
def switch_buffer (current : String) : String × Gen :=
  (if current = "A" then "B" else "A", if current = "A" then .B else .A)

/-- On-disk state of one generation file: missing, present but not JSON
(`json.JSONDecodeError` on load), or a parsed JSON list of records. -/
inductive FileSt (α : Type) where
  | absent
  | corrupt
  | content (l : List α)
deriving DecidableEq

/-- What `write_telemetry_to_disk` recovers from a generation file
(`telemetry_reader.py` lines 58-64): the parsed list, or `[]` when the file
is absent or unparseable. -/
def FileSt.load {α : Type} : FileSt α → List α
  | .absent => []
  | .corrupt => []
  | .content l => l

/-- `Path.exists()` for a generation file. -/
def FileSt.existsOnDisk {α : Type} : FileSt α → Bool
  | .absent => false
  | _ => true

/-- A telemetry record as `write_telemetry_to_disk` sees it: the optional
`readingGUID` key, with the remaining fields abstracted into `body`. -/
structure TRec where
  readingGUID : Option Nat
  body : Nat
deriving DecidableEq

/-- `telemetry_reader.py` lines 67-68: set `data["readingGUID"]` to a fresh
GUID when the key is absent; leave the record unchanged otherwise. -/
def ensureReadingGuid (fresh : Nat) (d : TRec) : TRec :=
  if d.readingGUID.isSome then d else { d with readingGUID := some fresh }

/-- `write_telemetry_to_disk` (`telemetry_reader.py` lines 54-79), acting on
the active generation file under the write lock: load the current contents
(`[]` when absent or corrupt), ensure the record has a `readingGUID`, append
it, and rewrite the file as the whole list. -/
def write_telemetry_to_disk (fresh : Nat) (fs : FileSt TRec) (d : TRec) : FileSt TRec :=
  .content (fs.load ++ [ensureReadingGuid fresh d])

/-! ## Definitions: concurrent appends against one rotation (C1)

The write lock (`common.py` line 10) serializes the locked body of
`write_telemetry_to_disk` (`telemetry_reader.py` lines 57-77) and the
uploader's rotation block (`telemetry_uploader.py` lines 240-246), so an
execution is a sequence of atomic events.  `write_telemetry_to_disk`
resolves the active pointer *outside* the lock (line 56), so pointer
resolution is its own event: a reader may resolve the pointer, be
overtaken by the rotation, and then append to the now-frozen generation.
Readings are opaque values `r i` (they already carry their `readingGUID`
when the reader thread calls `write_telemetry_to_disk`,
`telemetry_reader.py` lines 216-232). -/

/-- Shared on-disk state: the active pointer, the two generation files,
and each reader's resolved-but-not-yet-used pointer value. -/
structure BufState (α : Type) where
  ptr : Gen
  bufA : FileSt α
  bufB : FileSt α
  res : Nat → Option Gen

/-- The generation file named by `g`. -/
def getBuf {α : Type} (s : BufState α) : Gen → FileSt α
  | .A => s.bufA
  | .B => s.bufB

/-- Replace the generation file named by `g`. -/
def setBuf {α : Type} (s : BufState α) (g : Gen) (f : FileSt α) : BufState α :=
  match g with
  | .A => { s with bufA := f }
  | .B => { s with bufB := f }

/-- Atomic events: reader `i` resolves the active pointer
(`get_active_buffer()` outside the lock), reader `i` performs its locked
read-modify-write append, and the uploader performs its locked rotation
block. -/
inductive Ev where
  | resolve (i : Nat)
  | write (i : Nat)
  | rotate
deriving DecidableEq

/-- One atomic event.  `resolve i` records the current pointer for reader
`i`.  `write i` appends `r i` to the generation reader `i` resolved (the
current one if it never resolved separately — the sequential case), loading
`[]` from an absent or corrupt file.  `rotate` is the uploader block
(`telemetry_uploader.py` lines 240-246): if the active generation file
exists, flip the pointer and initialize the newly-active generation to the
empty list; otherwise do nothing. -/
def step {α : Type} (r : Nat → α) (s : BufState α) : Ev → BufState α
  | .resolve i => { s with res := fun j => if j = i then some s.ptr else s.res j }
  | .write i =>
      let p := (s.res i).getD s.ptr
      setBuf s p (.content ((getBuf s p).load ++ [r i]))
  | .rotate =>
      if (getBuf s s.ptr).existsOnDisk then
        setBuf { s with ptr := s.ptr.flip } s.ptr.flip (.content [])
      else s

/-- Execute a schedule of events. -/
def run {α : Type} (r : Nat → α) (s : BufState α) (es : List Ev) : BufState α :=
  es.foldl (step r) s

/-- The reader indices whose append event occurs in a schedule, in order. -/
def writeIdxs (es : List Ev) : List Nat :=
  es.filterMap fun e => match e with
    | .write i => some i
    | _ => none

/-- The multiset of readings held by the two generations together. -/
def totalM {α : Type} (s : BufState α) : Multiset α :=
  (s.bufA.load : Multiset α) + (s.bufB.load : Multiset α)

/-- Invariant maintained before the rotation: the pointer still names the
initial generation, the other generation is still empty, and every
resolved pointer equals the initial one. -/
def PreRot {α : Type} (ptr0 : Gen) (s : BufState α) : Prop :=
  s.ptr = ptr0 ∧ (getBuf s ptr0.flip).load = [] ∧
    ∀ i, s.res i = none ∨ s.res i = some ptr0

/-! ## Definitions: the uploader cycle (`telemetry_uploader.py`) -/

/-- A reader append running with no concurrent rotation (the sequential
case of `write_telemetry_to_disk`): load the active generation, append,
rewrite. -/
def readerAppend {α : Type} (s : BufState α) (v : α) : BufState α :=
  setBuf s s.ptr (.content ((getBuf s s.ptr).load ++ [v]))

/-- Outcome of one uploader cycle: the new on-disk state, the payload
telemetry list delivered to the sink (if the send succeeded), and the
content written to the compressed archive (if archiving ran). -/
structure CycleResult (α : Type) where
  state : BufState α
  delivered : Option (List α)
  archived : Option (List α)

/-- One uploader send cycle (`telemetry_uploader.py` lines 239-271).
Under the write lock: read the active pointer; if that generation file
exists, flip the pointer and initialize the newly-active generation to
`[]`.  Then re-read the frozen generation file: a corrupt file raises in
`json.load` and is caught (buffer retained); an empty list skips the send
(`if telemetry_data:` line 256); otherwise the send outcome is `sendOk`
(connectivity probe plus `send_message_with_retry`).  On success the
generation file is archived (gzip of its content, then `unlink`) when
`archiveTelemetry` is set, else deleted; on failure nothing further
happens — the frozen generation file is retained. -/
def uploaderCycle {α : Type} (sendOk archiveEnabled : Bool) (s : BufState α) :
    CycleResult α :=
  let g := s.ptr
  if (getBuf s g).existsOnDisk then
    let s1 := setBuf { s with ptr := g.flip } g.flip (.content [])
    match getBuf s1 g with
    | .content td =>
        if td.isEmpty then ⟨s1, none, none⟩
        else if sendOk then
          if archiveEnabled then ⟨setBuf s1 g .absent, some td, some td⟩
          else ⟨setBuf s1 g .absent, some td, none⟩
        else ⟨s1, none, none⟩
    | _ => ⟨s1, none, none⟩
  else ⟨s, none, none⟩

/-- Initial state of the retain-on-failure trace: generation `A` is active
and holds the single reading `7`; generation `B` does not exist. -/
def c2Start : BufState Nat := ⟨.A, .content [7], .absent, fun _ => none⟩

/-- First uploader cycle: every delivery attempt fails (`sendOk = false`,
archiving off). -/
def c2Cycle1 : CycleResult Nat := uploaderCycle false false c2Start

/-- Between the cycles one reader appends reading `8` to the new active
generation `B`; the second cycle's delivery succeeds. -/
def c2Cycle2 : CycleResult Nat :=
  uploaderCycle true false (readerAppend c2Cycle1.state 8)

/-! ## Definitions: payload identity and retry loop
(`telemetry_uploader.py`) -/

/-- The payload built by `prepare_telemetry_payload`
(`telemetry_uploader.py` lines 127-136): the minted `payloadGUID` plus the
wrapped telemetry list; the constant gateway-identity fields and the
timestamp are not modelled. -/
structure Payload where
  payloadGUID : Nat
  telemetry : List Nat
deriving DecidableEq

/-- The GUID-minting loop of `prepare_telemetry_payload`
(`telemetry_uploader.py` lines 120-124): draw `uuid.uuid4()` candidates
(modelled as the stream `cands`) until one is not in `sent_payload_guids`
(modelled as the list `used`); `none` when the candidate stream is
exhausted (the Python loop would keep drawing). -/
def mintPayloadGuid (cands used : List Nat) : Option Nat :=
  cands.find? fun g => !used.contains g

/-- `prepare_telemetry_payload` (`telemetry_uploader.py` lines 117-138):
mint the `payloadGUID` once, build the payload around it, and return both. -/
def prepare_telemetry_payload (telemetry cands used : List Nat) :
    Option (Payload × Nat) :=
  (mintPayloadGuid cands used).map fun g => (⟨g, telemetry⟩, g)

/-- The attempt loop of `send_message_with_retry` (`telemetry_uploader.py`
lines 148-202): while `retry_count < max_retries (= 3)` and the shutdown
event is clear, send the (single, prebuilt) payload; stop on success; on
failure increment the count and loop.  `ok k` is the outcome of the
attempt made at `retry_count = k`; `shut k` is the shutdown flag observed
at the loop condition before that attempt.  Returns the payloads sent, in
order, and the overall success flag.  Structural fuel bounds the at most
three iterations. -/
def attemptLoop (p : Payload) (ok shut : Nat → Bool) : Nat → Nat → List Payload × Bool
  | 0, _ => ([], false)
  | fuel + 1, k =>
      if k < 3 ∧ shut k = false then
        if ok k then ([p], true)
        else
          let rest := attemptLoop p ok shut fuel (k + 1)
          (p :: rest.1, rest.2)
      else ([], false)

/-- `send_message_with_retry` (`telemetry_uploader.py` lines 140-203):
prepare the payload once — before the first delivery attempt — then run
the attempt loop with that payload. -/
def send_message_with_retry (telemetry cands used : List Nat)
    (ok shut : Nat → Bool) : Option (List Payload × Bool) :=
  (prepare_telemetry_payload telemetry cands used).map fun pg =>
    attemptLoop pg.1 ok shut 4 0

/-! ## Definitions: dedup tracking caps (`common.py`) -/

/-- `save_tracked_guids` (`common.py` lines 78-91): before persisting, keep
at most the last 1000 payload GUIDs (`[-1000:]`) and the last 10000 reading
GUIDs (`[-10000:]`) of the lists it is handed. -/
def save_tracked_guids (payload_guids reading_guids : List Nat) :
    List Nat × List Nat :=
  (if 1000 < payload_guids.length
     then payload_guids.drop (payload_guids.length - 1000) else payload_guids,
   if 10000 < reading_guids.length
     then reading_guids.drop (reading_guids.length - 10000) else reading_guids)

/-- The reading GUIDs `save_tracked_guids` discards: the leading entries of
the list it is handed, once the 10000 cap is exceeded. -/
def evictedReadingGuids (l : List Nat) : List Nat :=
  if 10000 < l.length then l.take (l.length - 10000) else []

/-! ## Definitions: retry backoff timeline (`telemetry_uploader.py`)

`send_message_with_retry` waits with `time.sleep(5 * retry_count)` between
failed attempts (`telemetry_uploader.py` lines 195-199); `time.sleep` takes
no cancellation signal, so the shutdown event is consulted only at the loop
condition (line 148).  The timeline below records the times at which that
loop condition is evaluated during a run in which every attempt fails
immediately (attempt duration zero): checks at `t = 0`, `t = 5` (after the
first `5·1` backoff), and `t = 15` (after the second `5·2` backoff; the
exhausted-retries exit check happens at the same instant). -/

/-- Loop-condition check times of the all-attempts-fail run, accumulated
from `retry_count = k` at time `t`; after the attempt at `k` fails the next
check happens `5 * (k + 1)` later when another attempt remains, immediately
otherwise.  Structural fuel bounds the three iterations. -/
def failRunChecks : Nat → Nat → Nat → List Nat
  | 0, _, t => [t]
  | fuel + 1, k, t =>
      if k < 3 then
        t :: failRunChecks fuel (k + 1) (t + if k + 1 < 3 then 5 * (k + 1) else 0)
      else [t]

/-- The shutdown-check instants of the failing run, from fuel `4`,
`retry_count = 0`, time `0`: the list `[0, 5, 15, 15]`. -/
def uploaderFailChecks : List Nat := failRunChecks 4 0 0

/-- The first instant, at or after the shutdown event is set at time `t`,
at which the uploader evaluates its loop condition (and can observe the
event). -/
def nextCheckAt (t : Nat) : Option Nat :=
  uploaderFailChecks.find? fun c => decide (t ≤ c)

set_option maxRecDepth 100000

/-! ## Theorems -/

/-- C5: `calculate_crc` on `01 03 00 00 00 01` equals the Modbus reference
value (wire bytes `84 0A`, i.e. CRC register `0x0A84`, little-endian), and
replacing any single byte of the frame by any other byte value changes the
computed CRC. -/
theorem crc_reference_and_single_byte_sensitivity :
    calculate_crc crcTestFrame = [0x84, 0x0A] ∧
    ∀ i < 6, ∀ b < 256, b ≠ crcTestFrame.getD i 0 →
      calculate_crc (crcTestFrame.set i b) ≠ calculate_crc crcTestFrame := by
  decide

/-- Closed witness for `crc_reference_and_single_byte_sensitivity`:
its bounded hypotheses hold at position `0`, replacement byte `2`. -/
theorem crc_reference_and_single_byte_sensitivity_witness :
    calculate_crc (crcTestFrame.set 0 2) ≠ calculate_crc crcTestFrame :=
  crc_reference_and_single_byte_sensitivity.2 0 (by decide) 2 (by decide) (by decide)

/-- C6: on the response `01 03 02 01 90 <crc>` with one register, the live
decode path extracts the data bytes `01 90`, reads them as the big-endian
integer `400`, and scales by `0.1` to the value `40`.  (In Python,
`400 * 0.1` is exactly `40.0` in IEEE double precision, so the `ℚ` model
agrees with the floating-point computation here.) -/
theorem response_decode_40 :
    decodeTestResponse
        = [0x01, 0x03, 0x02, 0x01, 0x90] ++ calculate_crc [0x01, 0x03, 0x02, 0x01, 0x90] ∧
    responseDataBytes decodeTestResponse 1 = [0x01, 0x90] ∧
    decodeRaw decodeTestResponse 1 = 400 ∧
    live_parse_response decodeTestResponse 1 = some 40 := by
  refine ⟨by decide, by decide, by decide, ?_⟩
  unfold live_parse_response
  rw [if_neg (by decide)]
  norm_num [decodeTestResponse, decodeRaw, responseDataBytes, fromBytesBE]

/-- C7 counterexample: the live serial read path does *not* reject a
response with a mismatched device address — `c7BadResponse` carries address
`2` while the configured default address is `1`, yet the live path still
produces the reading `40`, contradicting the claim that such a response is
rejected with no reading produced. -/
theorem live_path_accepts_address_mismatch :
    c7BadResponse.getD 0 0 = 2 ∧ (2 : Nat) ≠ 1 ∧
    live_parse_response c7BadResponse 1 = some 40 := by
  refine ⟨by decide, by decide, ?_⟩
  unfold live_parse_response
  rw [if_neg (by decide)]
  norm_num [c7BadResponse, decodeRaw, responseDataBytes, fromBytesBE]

/-- C7 amended: the live read path performs no validation at all — it
produces no reading exactly when the response is empty.  The length,
device-address and function-code checks (with `0x83` device errors
surfaced distinctly from malformed responses) exist only in the
calibration utility's `read_register`. -/
theorem live_path_nonempty_and_calibrator_validation :
    (∀ response numRegisters,
        live_parse_response response numRegisters = none ↔ response = []) ∧
    (∀ addr count response, response.length ≠ 5 + 2 * count →
        read_register_parse addr count response
          = .lengthError response.length (5 + 2 * count)) ∧
    (∀ addr count response, response.length = 5 + 2 * count →
        response.getD 0 0 ≠ addr →
        read_register_parse addr count response = .addressError (response.getD 0 0)) ∧
    (∀ addr count response, response.length = 5 + 2 * count →
        response.getD 0 0 = addr → response.getD 1 0 = 0x83 →
        read_register_parse addr count response = .deviceError (response.getD 2 0)) ∧
    (∀ addr count response, response.length = 5 + 2 * count →
        response.getD 0 0 = addr → response.getD 1 0 ≠ 0x03 → response.getD 1 0 ≠ 0x83 →
        read_register_parse addr count response = .functionError (response.getD 1 0)) := by
  refine ⟨fun response n => ?_, fun addr count response h => ?_,
    fun addr count response h h0 => ?_, fun addr count response h h0 h1 => ?_,
    fun addr count response h h0 h1 h2 => ?_⟩
  · unfold live_parse_response
    split <;> simp_all
  · unfold read_register_parse
    rw [if_pos h]
  · unfold read_register_parse
    rw [if_neg (not_not_intro h), if_pos h0]
  · unfold read_register_parse
    rw [if_neg (not_not_intro h), if_neg (not_not_intro h0),
      if_pos (show response.getD 1 0 ≠ 0x03 by rw [h1]; decide), if_pos h1]
  · unfold read_register_parse
    rw [if_neg (not_not_intro h), if_neg (not_not_intro h0), if_pos h1, if_neg h2]

/-- Closed witness for `live_path_nonempty_and_calibrator_validation` at
concrete responses, one per validated branch. -/
theorem live_path_nonempty_and_calibrator_validation_witness :
    (live_parse_response [] 1 = none ↔ ([] : List Nat) = []) ∧
    read_register_parse 1 1 [1, 3] = .lengthError 2 7 ∧
    read_register_parse 1 1 [2, 3, 2, 1, 144, 185, 184] = .addressError 2 ∧
    read_register_parse 1 1 [1, 131, 5, 0, 0, 0, 0] = .deviceError 5 ∧
    read_register_parse 1 1 [1, 6, 2, 1, 144, 185, 184] = .functionError 6 :=
  ⟨live_path_nonempty_and_calibrator_validation.1 [] 1,
   live_path_nonempty_and_calibrator_validation.2.1 1 1 [1, 3] (by decide),
   live_path_nonempty_and_calibrator_validation.2.2.1 1 1 _ (by decide) (by decide),
   live_path_nonempty_and_calibrator_validation.2.2.2.1 1 1 _ (by decide) (by decide)
     (by decide),
   live_path_nonempty_and_calibrator_validation.2.2.2.2 1 1 _ (by decide) (by decide)
     (by decide) (by decide)⟩

/-- C3 counterexample: with the pointer at `'A'`, the generation active
immediately before the flip is `A` (per `get_active_buffer`), but
`switch_buffer` returns `B` — the generation that is active *after* the
flip, not before it.  (The uploader compensates by reading
`get_active_buffer()` before calling `switch_buffer()`,
`telemetry_uploader.py` lines 241-243.) -/
theorem switch_buffer_returns_new_generation_cx :
    get_active_buffer "A" = Gen.A ∧ (switch_buffer "A").2 = Gen.B ∧ Gen.B ≠ Gen.A := by
  decide

/-- C3 amended: `switch_buffer` reads the pointer, flips it (`'A'` maps to
`'B'`, any other content maps to `'A'`), and returns the generation that is
active *after* the flip — the newly-active generation, which
`get_active_buffer` resolves from the newly written pointer content. -/
theorem switch_buffer_flips_and_returns_new :
    ∀ current : String,
      (switch_buffer current).2 = get_active_buffer (switch_buffer current).1 ∧
      (switch_buffer "A").1 = "B" ∧ (switch_buffer "B").1 = "A" := by
  intro current
  refine ⟨?_, by decide, by decide⟩
  unfold switch_buffer get_active_buffer
  by_cases h : current = "A" <;> simp [h]

/-- C10: whenever the active buffer file exists and parses as a JSON list
`l`, `write_telemetry_to_disk` rewrites it as exactly `l` with the one new
record (after `readingGUID` insertion) appended at the end: the first
`l.length` entries of the result are `l` itself, unchanged and in order. -/
theorem write_telemetry_appends_preserving_prefix :
    ∀ (l : List TRec) (d : TRec) (fresh : Nat),
      write_telemetry_to_disk fresh (.content l) d
          = .content (l ++ [ensureReadingGuid fresh d]) ∧
      (write_telemetry_to_disk fresh (.content l) d).load.take l.length = l ∧
      (write_telemetry_to_disk fresh (.content l) d).load.length = l.length + 1 := by
  intro l d fresh
  refine ⟨rfl, ?_, by simp [write_telemetry_to_disk, FileSt.load]⟩
  show (l ++ [ensureReadingGuid fresh d]).take l.length = l
  exact List.take_left l _

theorem getBuf_setBuf {α : Type} (s : BufState α) (g g' : Gen) (f : FileSt α) :
    getBuf (setBuf s g f) g' = if g' = g then f else getBuf s g' := by
  cases g <;> cases g' <;> simp [getBuf, setBuf]

theorem ptr_setBuf {α : Type} (s : BufState α) (g : Gen) (f : FileSt α) :
    (setBuf s g f).ptr = s.ptr := by
  cases g <;> rfl

theorem res_setBuf {α : Type} (s : BufState α) (g : Gen) (f : FileSt α) :
    (setBuf s g f).res = s.res := by
  cases g <;> rfl

theorem gen_flip_ne (g : Gen) : g.flip ≠ g := by
  cases g <;> decide

theorem totalM_step_resolve {α : Type} (r : Nat → α) (s : BufState α) (i : Nat) :
    totalM (step r s (.resolve i)) = totalM s := rfl

theorem totalM_step_write {α : Type} (r : Nat → α) (s : BufState α) (i : Nat) :
    totalM (step r s (.write i)) = totalM s + {r i} := by
  simp only [step]
  cases h : (s.res i).getD s.ptr
  · show ((s.bufA.load ++ [r i] : List α) : Multiset α) + (s.bufB.load : Multiset α)
        = (s.bufA.load : Multiset α) + (s.bufB.load : Multiset α) + {r i}
    rw [← Multiset.coe_add, Multiset.coe_singleton, add_right_comm]
  · show (s.bufA.load : Multiset α) + ((s.bufB.load ++ [r i] : List α) : Multiset α)
        = (s.bufA.load : Multiset α) + (s.bufB.load : Multiset α) + {r i}
    rw [← Multiset.coe_add, Multiset.coe_singleton, ← add_assoc]

/-- A rotation-free schedule adds exactly its writes to the two
generations, as a multiset. -/
theorem totalM_run_no_rotate {α : Type} (r : Nat → α) (es : List Ev) :
    ∀ s : BufState α, Ev.rotate ∉ es →
      totalM (run r s es) = totalM s + ((writeIdxs es).map r : Multiset α) := by
  induction es with
  | nil => intro s _; simp [run, writeIdxs]
  | cons e es ih =>
    intro s hmem
    have he : e ≠ Ev.rotate := fun h => hmem (h ▸ List.mem_cons_self e es)
    have hes : Ev.rotate ∉ es := fun h => hmem (List.mem_cons_of_mem e h)
    show totalM (run r (step r s e) es) = _
    rw [ih (step r s e) hes]
    cases e with
    | resolve i =>
        have hwi : writeIdxs (Ev.resolve i :: es) = writeIdxs es := by
          simp [writeIdxs]
        rw [totalM_step_resolve, hwi]
    | write i =>
        have hwi : writeIdxs (Ev.write i :: es) = i :: writeIdxs es := by
          simp [writeIdxs]
        rw [totalM_step_write, hwi, List.map_cons, ← Multiset.cons_coe,
          ← Multiset.singleton_add, ← add_assoc]
    | rotate => exact absurd rfl he

theorem preRot_run_no_rotate {α : Type} (r : Nat → α) (es : List Ev) :
    ∀ s : BufState α, Ev.rotate ∉ es → PreRot ptr0 s → PreRot ptr0 (run r s es) := by
  induction es with
  | nil => intro s _ h; exact h
  | cons e es ih =>
    intro s hmem hp
    have he : e ≠ Ev.rotate := fun h => hmem (h ▸ List.mem_cons_self e es)
    have hes : Ev.rotate ∉ es := fun h => hmem (List.mem_cons_of_mem e h)
    refine ih (step r s e) hes ?_
    obtain ⟨hptr, hfl, hres⟩ := hp
    cases e with
    | resolve i =>
        refine ⟨hptr, hfl, fun j => ?_⟩
        by_cases hj : j = i
        · right; simp [step, hj, hptr]
        · simpa [step, hj] using hres j
    | write i =>
        have hp : (s.res i).getD s.ptr = ptr0 := by
          rcases hres i with h | h <;> simp [h, hptr]
        have hstep : step r s (.write i)
            = setBuf s ptr0 (.content ((getBuf s ptr0).load ++ [r i])) := by
          simp only [step]
          rw [hp]
        rw [hstep]
        refine ⟨?_, ?_, ?_⟩
        · rw [ptr_setBuf]; exact hptr
        · rw [getBuf_setBuf, if_neg (gen_flip_ne ptr0)]; exact hfl
        · rw [res_setBuf]; exact hres
    | rotate => exact absurd rfl he

/-- The rotation preserves the stored multiset when the generation it
clears is empty. -/
theorem totalM_step_rotate {α : Type} (r : Nat → α) (s : BufState α)
    (h : (getBuf s s.ptr.flip).load = []) :
    totalM (step r s .rotate) = totalM s := by
  simp only [step]
  split
  · cases hp : s.ptr
    · have h' : s.bufB.load = [] := by rw [hp] at h; exact h
      show (s.bufA.load : Multiset α) + (([] : List α) : Multiset α)
          = (s.bufA.load : Multiset α) + (s.bufB.load : Multiset α)
      rw [h']
    · have h' : s.bufA.load = [] := by rw [hp] at h; exact h
      show (([] : List α) : Multiset α) + (s.bufB.load : Multiset α)
          = (s.bufA.load : Multiset α) + (s.bufB.load : Multiset α)
      rw [h']
  · rfl

/-- C1: for every interleaving of `n` reader appends with one uploader
rotation — any split `pre ++ rotate :: post` with each reader's append
occurring exactly once overall, pointer resolutions placed anywhere — when
both generations start empty (absent, corrupt, or `[]`), the union of the
two generations after the whole schedule is exactly the `n` appended
readings: a permutation of `r 0, …, r (n-1)`, with nothing lost and
nothing duplicated. -/
theorem no_loss_rotation {α : Type} (n : Nat) (r : Nat → α) (ptr0 : Gen)
    (fA fB : FileSt α) (es pre post : List Ev)
    (hsplit : es = pre ++ Ev.rotate :: post)
    (hpre : Ev.rotate ∉ pre) (hpost : Ev.rotate ∉ post)
    (hw : (writeIdxs es).Perm (List.range n))
    (hA : fA.load = []) (hB : fB.load = []) :
    (((run r ⟨ptr0, fA, fB, fun _ => none⟩ es).bufA.load)
        ++ ((run r ⟨ptr0, fA, fB, fun _ => none⟩ es).bufB.load)).Perm
      ((List.range n).map r) := by
  subst hsplit
  set s0 : BufState α := ⟨ptr0, fA, fB, fun _ => none⟩ with hs0
  have hwi : writeIdxs (pre ++ Ev.rotate :: post) = writeIdxs pre ++ writeIdxs post := by
    simp [writeIdxs, List.filterMap_append]
  rw [hwi] at hw
  have hrun : run r s0 (pre ++ Ev.rotate :: post)
      = run r (step r (run r s0 pre) .rotate) post := by
    simp [run, List.foldl_append]
  have hpre0 : PreRot ptr0 s0 := by
    refine ⟨rfl, ?_, fun i => Or.inl rfl⟩
    cases ptr0 <;> simpa [getBuf, Gen.flip, hs0]
  have hpre1 : PreRot ptr0 (run r s0 pre) := preRot_run_no_rotate r pre s0 hpre hpre0
  have h1 : totalM (run r s0 pre) = totalM s0 + ((writeIdxs pre).map r : Multiset α) :=
    totalM_run_no_rotate r pre s0 hpre
  have h2 : totalM (step r (run r s0 pre) .rotate) = totalM (run r s0 pre) := by
    refine totalM_step_rotate r _ ?_
    rw [hpre1.1]
    exact hpre1.2.1
  have h3 : totalM (run r (step r (run r s0 pre) .rotate) post)
      = totalM (step r (run r s0 pre) .rotate) + ((writeIdxs post).map r : Multiset α) :=
    totalM_run_no_rotate r post _ hpost
  have h0 : totalM s0 = 0 := by
    simp [totalM, hs0, hA, hB]
  have htot : totalM (run r s0 (pre ++ Ev.rotate :: post))
      = (((writeIdxs pre ++ writeIdxs post).map r : List α) : Multiset α) := by
    rw [hrun, h3, h2, h1, h0]
    simp
  have hco : (((writeIdxs pre ++ writeIdxs post).map r : List α) : Multiset α)
      = (((List.range n).map r : List α) : Multiset α) :=
    Multiset.coe_eq_coe.mpr (hw.map r)
  rw [hco] at htot
  rw [totalM, Multiset.coe_add, Multiset.coe_eq_coe] at htot
  exact htot

/-- Closed witness for `no_loss_rotation`: two readers, reader `0`
appending before the rotation and reader `1` after it. -/
theorem no_loss_rotation_witness :
    (((run (fun i => i) ⟨Gen.A, .absent, .absent, fun _ => none⟩
          [Ev.resolve 0, Ev.write 0, Ev.rotate, Ev.resolve 1, Ev.write 1]).bufA.load)
        ++ ((run (fun i => i) ⟨Gen.A, .absent, .absent, fun _ => none⟩
          [Ev.resolve 0, Ev.write 0, Ev.rotate, Ev.resolve 1, Ev.write 1]).bufB.load)).Perm
      ((List.range 2).map (fun i => i)) :=
  no_loss_rotation 2 (fun i => i) Gen.A .absent .absent
    [Ev.resolve 0, Ev.write 0, Ev.rotate, Ev.resolve 1, Ev.write 1]
    [Ev.resolve 0, Ev.write 0] [Ev.resolve 1, Ev.write 1]
    rfl (by decide) (by decide) (by decide) rfl rfl

/-- C2 (code bug): after a cycle in which every delivery attempt fails, the
frozen generation file `A = [7]` is indeed left untouched on disk — but it
is *not* retried when the active pointer is rotated back to it.  The next
cycle's rotation block initializes the newly-active generation to `[]`
(`telemetry_uploader.py` lines 243-246), overwriting the retained file
`A`, and what that cycle drains and sends is the other generation `B`.
Reading `7` ends up in no generation, no delivered payload and no archive:
it is silently discarded, contradicting the claim (and the code's own log
message "Buffer will be retained for next attempt"). -/
theorem retained_generation_destroyed_on_rotation :
    (getBuf c2Cycle1.state Gen.A = .content [7] ∧ c2Cycle1.delivered = none) ∧
    (getBuf c2Cycle2.state Gen.A = .content [] ∧
     getBuf c2Cycle2.state Gen.B = .absent ∧
     c2Cycle2.delivered = some [8] ∧ c2Cycle2.archived = none) := by
  decide

/-- C4: whatever the attempt outcomes and shutdown timing, every payload
sent by `send_message_with_retry` carries the single `payloadGUID` minted
by `prepare_telemetry_payload` before the first attempt, and at most three
attempts are made. -/
theorem payload_guid_stable_across_retries :
    ∀ (telemetry cands used : List Nat) (ok shut : Nat → Bool)
      (g : Nat) (res : List Payload × Bool),
      mintPayloadGuid cands used = some g →
      send_message_with_retry telemetry cands used ok shut = some res →
      res.1.length ≤ 3 ∧ ∀ q ∈ res.1, q.payloadGUID = g := by
  have key : ∀ (p : Payload) (ok shut : Nat → Bool) (fuel k : Nat),
      (attemptLoop p ok shut fuel k).1.length ≤ 3 - k ∧
        ∀ q ∈ (attemptLoop p ok shut fuel k).1, q = p := by
    intro p ok shut fuel
    induction fuel with
    | zero => intro k; exact ⟨by simp [attemptLoop], by simp [attemptLoop]⟩
    | succ fuel ih =>
      intro k
      simp only [attemptLoop]
      split
      · next hc =>
          split
          · exact ⟨by simp; omega, by simp⟩
          · refine ⟨?_, ?_⟩
            · have := (ih (k + 1)).1
              simp only [List.length_cons]
              omega
            · intro q hq
              rcases List.mem_cons.mp hq with h | h
              · exact h
              · exact (ih (k + 1)).2 q h
      · exact ⟨Nat.zero_le _, fun q hq => absurd hq (List.not_mem_nil q)⟩
  intro telemetry cands used ok shut g res hm hs
  unfold send_message_with_retry prepare_telemetry_payload at hs
  rw [hm] at hs
  simp only [Option.map_some', Option.some.injEq] at hs
  subst hs
  refine ⟨?_, ?_⟩
  · have := (key ⟨g, telemetry⟩ ok shut 4 0).1
    simpa using this
  · intro q hq
    have := (key ⟨g, telemetry⟩ ok shut 4 0).2 q hq
    rw [this]

/-- Closed witness for `payload_guid_stable_across_retries`: candidate GUID
`5`, no previously used GUIDs, all three attempts failing. -/
theorem payload_guid_stable_across_retries_witness :
    ([⟨5, [1]⟩, ⟨5, [1]⟩, ⟨5, [1]⟩] : List Payload).length ≤ 3 ∧
      ∀ q ∈ ([⟨5, [1]⟩, ⟨5, [1]⟩, ⟨5, [1]⟩] : List Payload), q.payloadGUID = 5 :=
  payload_guid_stable_across_retries [1] [5] [] (fun _ => false) (fun _ => false) 5
    ([⟨5, [1]⟩, ⟨5, [1]⟩, ⟨5, [1]⟩], false) rfl rfl

/-- C8 counterexample: it is not true that eviction removes the oldest
identifiers first.  GUIDs are labelled by mint order (`List.range 10001`:
GUID `i` was minted `i`-th), and `save_tracked_guids` is handed
`list(telemetry_guids)` — an arbitrary enumeration of an unordered Python
set (`telemetry_reader.py` line 49).  Under the enumeration that lists the
newest GUID first, the one evicted entry is the *newest* GUID `10000`, not
the oldest GUID `0` as oldest-first eviction would require. -/
theorem dedup_eviction_not_oldest_first_cx :
    ¬ ∀ e : List Nat, e.Perm (List.range 10001) →
        evictedReadingGuids e = (List.range 10001).take (e.length - 10000) := by
  intro hall
  have hperm : (10000 :: List.range 10000).Perm (List.range 10001) := by
    have hr : List.range 10001 = List.range 10000 ++ [10000] := List.range_succ 10000
    rw [hr]
    exact (List.perm_append_singleton _ _).symm
  have hthis := hall (10000 :: List.range 10000) hperm
  have hlen : (10000 :: List.range 10000).length = 10001 := by simp
  rw [hlen] at hthis
  have h1 : evictedReadingGuids (10000 :: List.range 10000) = [10000] := by
    unfold evictedReadingGuids
    rw [if_pos (by rw [hlen]; omega), hlen]
    simp
  have h2 : (List.range 10001).take (10001 - 10000) = [0] := by
    have hr : List.range 10001 = 0 :: List.map Nat.succ (List.range 10000) :=
      List.range_succ_eq_map 10000
    rw [show 10001 - 10000 = 1 from rfl, hr]
    simp
  rw [h1, h2] at hthis
  simp at hthis

/-- C8 amended: the persisted sets are capped at 10000 reading GUIDs and
1000 payload GUIDs — a higher cap for reading identifiers — and when a cap
is exceeded `save_tracked_guids` keeps the trailing cap-many entries of the
list it is handed, evicting the leading ones.  Because its callers rebuild
those lists from unordered in-memory sets, the evicted entries follow the
set's enumeration order, which need not be mint (oldest-first) order. -/
theorem dedup_caps_and_suffix_retention :
    ∀ pg rg : List Nat,
      (save_tracked_guids pg rg).1 = pg.drop (pg.length - 1000) ∧
      (save_tracked_guids pg rg).2 = rg.drop (rg.length - 10000) ∧
      (save_tracked_guids pg rg).1.length ≤ 1000 ∧
      (save_tracked_guids pg rg).2.length ≤ 10000 ∧
      (save_tracked_guids pg rg).1 <:+ pg ∧
      (save_tracked_guids pg rg).2 <:+ rg := by
  intro pg rg
  have e1 : (save_tracked_guids pg rg).1 = pg.drop (pg.length - 1000) := by
    show (if 1000 < pg.length then pg.drop (pg.length - 1000) else pg)
        = pg.drop (pg.length - 1000)
    split
    · rfl
    · next h =>
        rw [show pg.length - 1000 = 0 by omega, List.drop_zero]
  have e2 : (save_tracked_guids pg rg).2 = rg.drop (rg.length - 10000) := by
    show (if 10000 < rg.length then rg.drop (rg.length - 10000) else rg)
        = rg.drop (rg.length - 10000)
    split
    · rfl
    · next h =>
        rw [show rg.length - 10000 = 0 by omega, List.drop_zero]
  refine ⟨e1, e2, ?_, ?_, ?_, ?_⟩
  · rw [e1, List.length_drop]; omega
  · rw [e2, List.length_drop]; omega
  · rw [e1]; exact List.drop_suffix _ _
  · rw [e2]; exact List.drop_suffix _ _

/-- C9 counterexample: the shutdown event set at `t = 1`, strictly inside
the first backoff interval `(0, 5)`, is not observed before that backoff
ends — no loop-condition check happens in `[1, 5)`, and the first check at
or after `t = 1` is at `t = 5`, the end of the backoff.  The uploader
therefore remains blocked for the entire remainder of the pending backoff
wait, contradicting the claim. -/
theorem backoff_not_interruptible_cx :
    (¬ ∃ c ∈ uploaderFailChecks, 1 ≤ c ∧ c < 5) ∧ nextCheckAt 1 = some 5 := by
  decide

/-- C9 amended: the backoff delay is a plain `time.sleep`, not an
interruptible `Event.wait`; the shutdown event is consulted only at the
loop condition, so a shutdown raised during a pending backoff is first
observed exactly at that backoff's end — after the full remaining wait
(up to 10 seconds for the second backoff). -/
theorem backoff_observed_only_at_backoff_end :
    ∀ t : Nat, (0 < t → t ≤ 5 → nextCheckAt t = some 5) ∧
               (5 < t → t ≤ 15 → nextCheckAt t = some 15) := by
  intro t
  constructor
  · intro h1 h2
    unfold nextCheckAt
    rw [show uploaderFailChecks = [0, 5, 15, 15] from rfl]
    rw [List.find?_cons_of_neg _ (by simp; omega),
      List.find?_cons_of_pos _ (by simp; omega)]
  · intro h1 h2
    unfold nextCheckAt
    rw [show uploaderFailChecks = [0, 5, 15, 15] from rfl]
    rw [List.find?_cons_of_neg _ (by simp; omega),
      List.find?_cons_of_neg _ (by simp; omega),
      List.find?_cons_of_pos _ (by simp; omega)]

/-- Closed witness for `backoff_observed_only_at_backoff_end`: shutdown at
`t = 3` (first backoff) observed at `t = 5`; shutdown at `t = 7` (second
backoff) observed at `t = 15`. -/
theorem backoff_observed_only_at_backoff_end_witness :
    nextCheckAt 3 = some 5 ∧ nextCheckAt 7 = some 15 :=
  ⟨(backoff_observed_only_at_backoff_end 3).1 (by decide) (by decide),
   (backoff_observed_only_at_backoff_end 7).2 (by decide) (by decide)⟩

end IoTSpec
